import Mathlib

/-!
Verification development for the LeekWars bot client
(src/leekwars_bot.py). The definitions below are a shallow embedding of
the functions of the `LeekWarsBot` class: HTTP exchanges are modelled as
streams of per-request outcomes, the fight loop as a recursion over a
list of per-iteration environments, and Python-specific behaviour
(truthiness, `dict.get` defaults, positional-argument binding) is made
explicit.
-/

namespace LeekWars

/-- HTTP methods the client can issue. -/
inductive HttpMethod where
  | post
  | get
deriving DecidableEq, Repr

/-- Python `str.upper()` on the ASCII method strings this client uses:
uppercase every character. -/
def pyUpper (s : String) : String :=
  String.mk (s.data.map Char.toUpper)

/-- Method dispatch of `make_api_call` (lines 126-137): the request is a
POST exactly when `method.upper() == 'POST'` holds, and a GET in every
other case (the `else` branch is the GET branch). -/
def chooseHttpMethod (method : String) : HttpMethod :=
  if pyUpper method = "POST" then HttpMethod.post else HttpMethod.get

/-- The request shape of one HTTP exchange performed by `make_api_call`:
the endpoint appended to the base URL and the dispatched method. -/
structure ApiRequest where
  endpoint : String
  httpMethod : HttpMethod
deriving DecidableEq, Repr

/-- The request `make_api_call endpoint ... method` issues on each
attempt. -/
def make_api_call_request (endpoint method : String) : ApiRequest :=
  { endpoint := endpoint, httpMethod := chooseHttpMethod method }

/-- `get_fight_result` (lines 287-293) calls `make_api_call` on endpoint
`fight/get/{fight_id}` with the method string "GOT". -/
def get_fight_result_request (fight_id : Int) : ApiRequest :=
  make_api_call_request ("fight/get/" ++ toString fight_id) "GOT"

/-- Outcome of one HTTP exchange, as discriminated by `make_api_call`
(lines 142-168): `ok body` is an HTTP 200 (`body = none` when the body
fails to parse as JSON), then status 401, status 429, any other status,
and a caught transport-level exception. `β` is the type of parsed JSON
bodies. -/
inductive ApiOutcome (β : Type) where
  | ok (body : Option β)
  | unauthorized
  | rateLimited
  | otherStatus (code : Nat)
  | transportError
deriving DecidableEq, Repr

/-- `make_api_call` (lines 117-168) run against a stream of per-request
outcomes; the result is the returned value together with the number of
HTTP requests issued. A 200 returns the parsed body (or `none` on a
JSON decode error); a 401 attempts one re-login and, when the login
succeeds, re-invokes `make_api_call` on the same endpoint, params and
method after a fixed delay — the recursion at line 154 carries no retry
counter, so every further 401 with a successful re-login recurses
again; a 429, any other status, and a transport error all return
`none`. -/
def make_api_call {β : Type} (loginSucceeds : Bool) :
    List (ApiOutcome β) → Option β × Nat
  | [] => (none, 0)
  | o :: rest =>
    match o with
    | ApiOutcome.ok body => (body, 1)
    | ApiOutcome.unauthorized =>
      if loginSucceeds then
        let r := make_api_call loginSucceeds rest
        (r.1, r.2 + 1)
      else (none, 1)
    | ApiOutcome.rateLimited => (none, 1)
    | ApiOutcome.otherStatus _ => (none, 1)
    | ApiOutcome.transportError => (none, 1)

/-- One HTTP cookie as seen in the session cookie jar after the login
request. -/
structure Cookie where
  name : String
  value : String
deriving DecidableEq, Repr

/-- The parts of the login HTTP response that `login` branches on:
the status code and whether the body parsed as JSON (the parsed farmer
data is only logged, never used for the decision). -/
structure LoginResponse where
  statusCode : Nat
  bodyIsJson : Bool
deriving DecidableEq, Repr

/-- The cookie-scanning loop of `login` (lines 81-91): `php_session_id`
is assigned the value of every cookie named "PHPSESSID" in jar order, so
it ends as the value of the last such cookie, or stays unset when there
is none. -/
def scanPhpSessionId (cookies : List Cookie) : Option String :=
  cookies.foldl (fun acc c => if c.name = "PHPSESSID" then some c.value else acc) none

/-- `login` for a fresh client (lines 43-115), where the session cookie
jar holds exactly the cookies set by the login response: returns `true`
iff the status is 200, the body is JSON, and the truthiness test
`if self.php_session_id:` passes, i.e. some "PHPSESSID" cookie was
scanned and its value is a non-empty string. A non-200 status, a
non-JSON body, or a missing PHPSESSID all return `false`. -/
def login (resp : LoginResponse) (cookies : List Cookie) : Bool :=
  if resp.statusCode = 200 then
    if resp.bodyIsJson then
      match scanPhpSessionId cookies with
      | some v => !(v == "")
      | none => false
    else false
  else false

/-- A decoded JSON value, as far as this client inspects one. -/
inductive PyVal where
  | vStr (s : String)
  | vInt (n : Int)
  | vList (xs : List PyVal)
  | vNone
deriving Repr

/-- A decoded JSON object: association list of keys to values. -/
abbrev PyDict := List (String × PyVal)

/-- Python `'k' in d` on a dict. -/
def dictHasKey (d : PyDict) (k : String) : Bool :=
  d.any (fun p => p.1 == k)

/-- `get_garden_farmer_opponents` (lines 195-202): when the call result
is truthy (a non-empty dict) and has an 'opponents' key, the function
returns the list literal `['opponents']` — a one-element list holding
the string "opponents", not `result['opponents']`; otherwise it returns
`[]`. -/
def get_garden_farmer_opponents (result : Option PyDict) : List PyVal :=
  match result with
  | none => []
  | some d =>
    if !d.isEmpty && dictHasKey d "opponents" then [PyVal.vStr "opponents"]
    else []

/-- An opponent record as inspected by the fight loop: `.get('id')`,
`.get('name', ...)` and `.get('talent', 999999)` tolerate each key being
absent. -/
structure Opponent where
  id : Option Int
  name : Option String
  talent : Option Int
deriving DecidableEq, Repr

/-- The sort key `lambda o: o.get('talent', 999999)` of line 368. -/
def opponentKey (o : Opponent) : Int :=
  o.talent.getD 999999

/-- Python `min(iterable, key=...)` on a non-empty list: scan left to
right, replacing the current minimum only on a strictly smaller key, so
the first element with the minimal key is returned. -/
def pyMinBy {α : Type} (key : α → Int) (x : α) (xs : List α) : α :=
  xs.foldl (fun acc y => if key y < key acc then y else acc) x

/-- A fight status value: the API reports either a string or an integer
(comment at line 304). -/
inductive StatusV where
  | s (str : String)
  | i (int : Int)
deriving DecidableEq, Repr

/-- The terminal test of line 305,
`status in ['finished', 'end', 2] or status == 2`: a string status is
terminal iff it equals "finished" or "end", an integer status iff it
equals 2. -/
def statusTerminal : StatusV → Bool
  | StatusV.s str => str == "finished" || str == "end"
  | StatusV.i n => n == 2

/-- A fight info record as inspected by the bot: status and winner, each
possibly absent. -/
structure FightInfo where
  status : Option StatusV
  winner : Option Int
deriving DecidableEq, Repr

/-- `fight_info.get('status', '')` of line 303: a missing status reads
as the empty string. -/
def fightStatus (fi : FightInfo) : StatusV :=
  fi.status.getD (StatusV.s "")

/-- `wait_for_fight_end` (lines 295-315) over the sequence of poll
outcomes that fit inside the max_wait window: each element is the value
of `get_fight_result` at one poll (`none` for a falsy result). A poll
with a terminal status returns that fight info at once; a falsy poll,
an in-progress status ("running"/"progress"/1) and any other status all
continue to the next poll; exhausting the window returns `none`. -/
def wait_for_fight_end : List (Option FightInfo) → Option FightInfo
  | [] => none
  | p :: rest =>
    match p with
    | some fi =>
      if statusTerminal (fightStatus fi) then some fi
      else wait_for_fight_end rest
    | none => wait_for_fight_end rest

/-- A Python runtime error raised by the script. -/
inductive PyError where
  | typeError (msg : String)
deriving DecidableEq, Repr

/-- The positional parameters of `start_garden_fight` (line 266),
excluding `self`: both are required and neither has a default value. -/
def start_garden_fight_params : List String := ["leek_id", "target_id"]

/-- Python call binding for a function whose parameters are all required
and positional: the call raises TypeError unless exactly as many
arguments are supplied as there are parameters. -/
def bindPositionalArgs (params : List String) (args : List (Option Int)) :
    Except PyError Unit :=
  if args.length = params.length then Except.ok ()
  else Except.error (PyError.typeError "missing required positional argument")

/-- The server reply to garden/start-solo-fight, as discriminated by the
body of `start_garden_fight` (lines 270-285): a body with a 'fight' key,
a body with an 'error' key, some other truthy body, or a falsy result
from `make_api_call`. -/
inductive StartFightReply where
  | fightKey (fid : Int)
  | errorKey (err : String)
  | otherBody
  | noResult
deriving DecidableEq, Repr

/-- The body of `start_garden_fight` once its arguments are bound:
returns the fight id when the reply carries a 'fight' key; an 'error'
key is only logged; every other case falls through to `return None`. -/
def start_garden_fight (reply : StartFightReply) : Option Int :=
  match reply with
  | StartFightReply.fightKey fid => some fid
  | StartFightReply.errorKey _ => none
  | StartFightReply.otherBody => none
  | StartFightReply.noResult => none

/-- The environment one iteration of the fight loop runs against: the
fetched opponent list, the start-fight reply, the poll outcomes inside
the max_wait window, and how much wall-clock time the iteration takes
(network calls, polling and the inter-fight sleeps). -/
structure FightIteration where
  opponents : List Opponent
  reply : StartFightReply
  polls : List (Option FightInfo)
  timeCost : Nat
deriving Repr

/-- The mutable state of the fight loop: elapsed time in seconds since
the session started, `fight_count` and `victories` (lines 356-358). -/
structure LoopState where
  time : Nat
  fight_count : Nat
  victories : Nat
deriving DecidableEq, Repr

/-- The truthiness test `if fight_id:` of line 378. -/
def truthyFightId : Option Int → Bool
  | none => false
  | some n => n != 0

/-- One iteration of the while loop of `auto_fight_session`
(lines 360-401), without the time bookkeeping: fetch the opponents; when
the list is non-empty pick the weakest by talent and call
`start_garden_fight(leek_id, target_id)` with two arguments, otherwise
the code calls `self.start_garden_fight(leek_id)` with a single
argument, which fails Python call binding because `target_id` has no
default; when a truthy fight id comes back, poll, and on a resolved
result add a victory when the winner field (defaulted to 0) equals 1 and
then count the fight; an unresolved poll or an unstarted fight leaves
both counters unchanged. -/
def runIteration (leekId : Int) (it : FightIteration) (st : LoopState) :
    Except PyError LoopState :=
  let fightIdE : Except PyError (Option Int) :=
    match it.opponents with
    | o :: os =>
      let weakest := pyMinBy opponentKey o os
      (bindPositionalArgs start_garden_fight_params [some leekId, weakest.id]).map
        (fun _ => start_garden_fight it.reply)
    | [] =>
      (bindPositionalArgs start_garden_fight_params [some leekId]).map
        (fun _ => start_garden_fight it.reply)
  match fightIdE with
  | Except.error e => Except.error e
  | Except.ok fightId =>
    Except.ok
      (if truthyFightId fightId then
        match wait_for_fight_end it.polls with
        | some fr =>
          { st with
            fight_count := st.fight_count + 1,
            victories := st.victories + (if fr.winner.getD 0 == 1 then 1 else 0) }
        | none => st
      else st)

/-- The session loop of `auto_fight_session` (lines 356-402): starting
at time 0 with `end_time = duration_minutes * 60`, run iterations while
`time < end_time` holds, each consuming one iteration environment and
advancing the clock by its time cost; a raised Python error propagates
(the loop body is not wrapped in any try block). -/
def fightLoop (leekId : Int) (endTime : Nat) :
    List FightIteration → LoopState → Except PyError LoopState
  | [], st => Except.ok st
  | it :: rest, st =>
    if st.time < endTime then
      match runIteration leekId it st with
      | Except.error e => Except.error e
      | Except.ok st1 =>
        fightLoop leekId endTime rest { st1 with time := st1.time + it.timeCost }
    else Except.ok st

/-- The final statistics block (lines 403-411). -/
structure Report where
  fights : Nat
  victories : Nat
  defeats : Nat
  win_rate : Option ℚ
deriving DecidableEq, Repr

/-- Build the final report from the loop state (lines 403-411): defeats
are printed as `fight_count - victories`, and the win-rate division
`(victories / fight_count) * 100` is computed only under the guard
`if fight_count > 0:`. -/
def makeReport (st : LoopState) : Report :=
  { fights := st.fight_count
    victories := st.victories
    defeats := st.fight_count - st.victories
    win_rate :=
      if st.fight_count > 0 then
        some ((st.victories : ℚ) / (st.fight_count : ℚ) * 100)
      else none }

/-- The fight-session portion of `auto_fight_session` (lines 356-411):
run the time-boxed loop from a zero state and report the totals. -/
def auto_fight_session (duration_minutes : Nat) (leekId : Int)
    (iters : List FightIteration) : Except PyError Report :=
  (fightLoop leekId (duration_minutes * 60) iters { time := 0, fight_count := 0, victories := 0 }).map
    makeReport

/-- The one-decimal rendering of the win rate at line 411
(f-string format .1f); ties at half a tenth do not occur for the values
considered here, so rounding to the nearest tenth models it. -/
def roundToTenths (q : ℚ) : ℚ :=
  (round (q * 10) : ℤ) / 10

/-- Concrete opponent with talent 50. -/
def oppA : Opponent := { id := some 1, name := some "A", talent := some 50 }

/-- Concrete opponent with talent 10. -/
def oppB : Opponent := { id := some 2, name := some "B", talent := some 10 }

/-- Concrete opponent with talent 30. -/
def oppC : Opponent := { id := some 3, name := some "C", talent := some 30 }

/-- A poll observing a finished fight won by the bot's unit. -/
def winPoll : Option FightInfo :=
  some { status := some (StatusV.s "finished"), winner := some 1 }

/-- A poll observing a finished fight lost by the bot's unit. -/
def lossPoll : Option FightInfo :=
  some { status := some (StatusV.s "finished"), winner := some 0 }

/-- Fight 1 of the end-to-end scenario: started and won. -/
def iterWin1 : FightIteration :=
  { opponents := [oppB], reply := StartFightReply.fightKey 100,
    polls := [winPoll], timeCost := 60 }

/-- Fight 2 of the end-to-end scenario: started and lost. -/
def iterLoss2 : FightIteration :=
  { opponents := [oppB], reply := StartFightReply.fightKey 101,
    polls := [lossPoll], timeCost := 60 }

/-- Fight 3 of the end-to-end scenario: started and won. -/
def iterWin3 : FightIteration :=
  { opponents := [oppB], reply := StartFightReply.fightKey 102,
    polls := [winPoll], timeCost := 60 }

/-- An iteration whose opponent fetch comes back empty. -/
def iterEmptyOpponents : FightIteration :=
  { opponents := [], reply := StartFightReply.noResult,
    polls := [], timeCost := 30 }

/-- An iteration whose fight starts but whose polls never observe a
terminal status inside the window. -/
def iterNoResolve : FightIteration :=
  { opponents := [oppB], reply := StartFightReply.fightKey 103,
    polls := [some { status := some (StatusV.s "running"), winner := none }],
    timeCost := 60 }

/-- C1 evidence at the failing input: over the outcome stream
401, 401, 200 with every re-login succeeding, `make_api_call` issues a
third HTTP request and returns the third response's body, instead of
stopping with no result after the second consecutive 401 as the spec
(and the code's own "Retry une fois" comment) require. -/
theorem make_api_call_retries_past_second_401 :
    make_api_call true
      [ApiOutcome.unauthorized, ApiOutcome.unauthorized, ApiOutcome.ok (some 7)]
      = ((some 7 : Option Nat), 3) := rfl

/-- C7: every method string whose uppercase form is not "POST" makes
`make_api_call` issue a GET, and `get_fight_result`, which passes the
method string "GOT", issues a GET to the fight/get endpoint. -/
theorem non_post_method_is_get :
    (∀ m : String, pyUpper m ≠ "POST" → chooseHttpMethod m = HttpMethod.get)
    ∧ ∀ fid : Int, get_fight_result_request fid
        = { endpoint := "fight/get/" ++ toString fid,
            httpMethod := HttpMethod.get } := by
  constructor
  · intro m hm
    simp [chooseHttpMethod, hm]
  · intro fid
    have h : chooseHttpMethod "GOT" = HttpMethod.get := by decide
    simp [get_fight_result_request, make_api_call_request, h]

/-- Witness for C7 at the concrete method string "GOT". -/
theorem non_post_method_is_get_witness :
    chooseHttpMethod "GOT" = HttpMethod.get :=
  non_post_method_is_get.1 "GOT" (by decide)

/-- C2 evidence at the failing input: an iteration that fetches an empty
opponent list reaches the one-argument call
`self.start_garden_fight(leek_id)`; argument binding fails because
`target_id` has no default, so the iteration (and the whole session)
raises TypeError instead of requesting an automatic matchup. -/
theorem empty_opponents_raise_type_error :
    runIteration 2 iterEmptyOpponents { time := 0, fight_count := 0, victories := 0 }
      = Except.error (PyError.typeError "missing required positional argument")
    ∧ auto_fight_session 30 2 [iterEmptyOpponents]
      = Except.error (PyError.typeError "missing required positional argument") :=
  ⟨rfl, rfl⟩

/-- C5: with a configured duration of 0 minutes the loop guard
`time < end_time` fails immediately, so zero fights run, and the report
skips the win-rate division: the win rate field stays empty rather than
dividing by the zero fight count. -/
theorem zero_duration_zero_fights :
    ∀ (leekId : Int) (iters : List FightIteration),
      auto_fight_session 0 leekId iters
        = Except.ok { fights := 0, victories := 0, defeats := 0, win_rate := none } := by
  intro leekId iters
  cases iters with
  | nil => rfl
  | cons it rest => rfl

/-- C9: whenever the farmer-opponent listing comes back with an
'opponents' key, `get_garden_farmer_opponents` returns the one-element
list holding the literal string "opponents"; whenever the key is absent
(or the call fails) it returns the empty list; so the function only ever
returns one of those two lists and never the opponent records. -/
theorem get_garden_farmer_opponents_literal :
    ∀ result : Option PyDict,
      (∀ d : PyDict, result = some d → dictHasKey d "opponents" = true →
        get_garden_farmer_opponents result = [PyVal.vStr "opponents"])
      ∧ ((∀ d : PyDict, result = some d → dictHasKey d "opponents" = false) →
        get_garden_farmer_opponents result = [])
      ∧ (get_garden_farmer_opponents result = []
        ∨ get_garden_farmer_opponents result = [PyVal.vStr "opponents"]) := by
  intro result
  refine ⟨?_, ?_, ?_⟩
  · intro d hd hkey
    subst hd
    have hne : d.isEmpty = false := by
      cases d with
      | nil => simp [dictHasKey] at hkey
      | cons p ps => rfl
    simp [get_garden_farmer_opponents, hne, hkey]
  · intro h
    cases result with
    | none => rfl
    | some d =>
      have hk := h d rfl
      simp [get_garden_farmer_opponents, hk]
  · cases result with
    | none => exact Or.inl rfl
    | some d =>
      by_cases hc : (!d.isEmpty && dictHasKey d "opponents") = true
      · exact Or.inr (by simp [get_garden_farmer_opponents, hc])
      · exact Or.inl (by simp [get_garden_farmer_opponents, hc])

/-- Witness for C9 at a concrete response carrying an 'opponents' key. -/
theorem get_garden_farmer_opponents_literal_witness :
    get_garden_farmer_opponents (some [("opponents", PyVal.vNone)])
      = [PyVal.vStr "opponents"] :=
  (get_garden_farmer_opponents_literal (some [("opponents", PyVal.vNone)])).1
    [("opponents", PyVal.vNone)] rfl rfl

/-- The cookie scan yields a value only if some cookie named "PHPSESSID"
carries that value (or it was already the accumulator). -/
theorem scan_foldl_some :
    ∀ (cookies : List Cookie) (acc : Option String) (v : String),
      cookies.foldl
          (fun a c => if c.name = "PHPSESSID" then some c.value else a) acc
        = some v →
      (∃ c ∈ cookies, c.name = "PHPSESSID" ∧ c.value = v) ∨ acc = some v := by
  intro cookies
  induction cookies with
  | nil => intro acc v h; exact Or.inr h
  | cons c cs ih =>
    intro acc v h
    simp only [List.foldl_cons] at h
    rcases ih _ v h with h1 | h2
    · rcases h1 with ⟨c2, hc2, hn, hv⟩
      exact Or.inl ⟨c2, List.mem_cons_of_mem _ hc2, hn, hv⟩
    · by_cases hn : c.name = "PHPSESSID"
      · rw [if_pos hn] at h2
        exact Or.inl ⟨c, List.mem_cons_self _ _, hn, Option.some.inj h2⟩
      · rw [if_neg hn] at h2
        exact Or.inr h2

/-- When no cookie is named "PHPSESSID" the scan leaves the accumulator
untouched. -/
theorem scan_foldl_const :
    ∀ (cookies : List Cookie) (acc : Option String),
      (∀ c ∈ cookies, c.name ≠ "PHPSESSID") →
      cookies.foldl
          (fun a c => if c.name = "PHPSESSID" then some c.value else a) acc
        = acc := by
  intro cookies
  induction cookies with
  | nil => intro acc _; rfl
  | cons c cs ih =>
    intro acc h
    simp only [List.foldl_cons]
    rw [if_neg (h c (List.mem_cons_self _ _))]
    exact ih acc (fun c2 hc2 => h c2 (List.mem_cons_of_mem _ hc2))

/-- C8: `login` reports success only when the status is 200, the body is
JSON, and the cookie jar carries a "PHPSESSID" cookie with a non-empty
value; when no cookie is named "PHPSESSID", login is reported as failed
even on HTTP 200 with a valid JSON body. -/
theorem login_requires_session_cookie :
    ∀ (resp : LoginResponse) (cookies : List Cookie),
      (login resp cookies = true →
        resp.statusCode = 200 ∧ resp.bodyIsJson = true
        ∧ ∃ c ∈ cookies, c.name = "PHPSESSID" ∧ c.value ≠ "")
      ∧ ((∀ c ∈ cookies, c.name ≠ "PHPSESSID") → login resp cookies = false) := by
  intro resp cookies
  constructor
  · intro h
    unfold login at h
    by_cases hs : resp.statusCode = 200
    · rw [if_pos hs] at h
      by_cases hj : resp.bodyIsJson = true
      · rw [if_pos hj] at h
        refine ⟨hs, hj, ?_⟩
        cases hscan : scanPhpSessionId cookies with
        | none => rw [hscan] at h; exact absurd h (by simp)
        | some v =>
          rw [hscan] at h
          have hv : v ≠ "" := by
            intro hv0
            subst hv0
            exact absurd h (by simp)
          rcases scan_foldl_some cookies none v hscan with h1 | h2
          · rcases h1 with ⟨c, hc, hn, hcv⟩
            exact ⟨c, hc, hn, by rw [hcv]; exact hv⟩
          · exact absurd h2 (by simp)
      · rw [if_neg hj] at h
        exact absurd h (by simp)
    · rw [if_neg hs] at h
      exact absurd h (by simp)
  · intro hno
    have hscan : scanPhpSessionId cookies = none :=
      scan_foldl_const cookies none hno
    unfold login
    rw [hscan]
    by_cases hs : resp.statusCode = 200 <;> by_cases hj : resp.bodyIsJson = true <;>
      simp [hs, hj]

/-- Witness for C8: a 200 JSON response whose jar holds only a token
cookie is reported as a failed login. -/
theorem login_requires_session_cookie_witness :
    login { statusCode := 200, bodyIsJson := true }
      [{ name := "token", value := "t" }] = false :=
  (login_requires_session_cookie { statusCode := 200, bodyIsJson := true }
    [{ name := "token", value := "t" }]).2 (by decide)

/-- `pyMinBy` returns an element of the scanned list. -/
theorem pyMinBy_mem {α : Type} (key : α → Int) :
    ∀ (xs : List α) (x : α), pyMinBy key x xs ∈ x :: xs := by
  intro xs
  induction xs with
  | nil => intro x; simp [pyMinBy]
  | cons y ys ih =>
    intro x
    have hstep : pyMinBy key x (y :: ys)
        = pyMinBy key (if key y < key x then y else x) ys := rfl
    by_cases hlt : key y < key x
    · rw [hstep, if_pos hlt]
      rcases List.mem_cons.mp (ih y) with h1 | h2
      · exact List.mem_cons.mpr (Or.inr (List.mem_cons.mpr (Or.inl h1)))
      · exact List.mem_cons.mpr (Or.inr (List.mem_cons.mpr (Or.inr h2)))
    · rw [hstep, if_neg hlt]
      rcases List.mem_cons.mp (ih x) with h1 | h2
      · exact List.mem_cons.mpr (Or.inl h1)
      · exact List.mem_cons.mpr (Or.inr (List.mem_cons.mpr (Or.inr h2)))

/-- The key of the element `pyMinBy` returns is minimal over the scanned
list. -/
theorem pyMinBy_le {α : Type} (key : α → Int) :
    ∀ (xs : List α) (x : α) (o : α), o ∈ x :: xs →
      key (pyMinBy key x xs) ≤ key o := by
  intro xs
  induction xs with
  | nil =>
    intro x o ho
    rcases List.mem_cons.mp ho with h | h
    · subst h; exact le_refl _
    · simp at h
  | cons y ys ih =>
    intro x o ho
    have hstep : pyMinBy key x (y :: ys)
        = pyMinBy key (if key y < key x then y else x) ys := rfl
    rw [hstep]
    have hx1x : key (if key y < key x then y else x) ≤ key x := by
      by_cases hlt : key y < key x
      · rw [if_pos hlt]; exact le_of_lt hlt
      · rw [if_neg hlt]
    have hx1y : key (if key y < key x then y else x) ≤ key y := by
      by_cases hlt : key y < key x
      · rw [if_pos hlt]
      · rw [if_neg hlt]; exact le_of_not_lt hlt
    have hmin : key (pyMinBy key (if key y < key x then y else x) ys)
        ≤ key (if key y < key x then y else x) :=
      ih (if key y < key x then y else x) _ (List.mem_cons_self _ _)
    rcases List.mem_cons.mp ho with h | h
    · subst h; exact le_trans hmin hx1x
    · rcases List.mem_cons.mp h with h2 | h2
      · subst h2; exact le_trans hmin hx1y
      · exact ih (if key y < key x then y else x) o (List.mem_cons.mpr (Or.inr h2))

/-- C3: the fight loop selects the weakest opponent with
`min(opponents, key=lambda o: o.get('talent', 999999))`: for every
non-empty opponent list in which every opponent carries a talent value,
the selected opponent belongs to the list, carries a talent value, and
its talent is less than or equal to every opponent's talent. -/
theorem opponent_selection_minimal :
    ∀ (x : Opponent) (xs : List Opponent),
      (∀ o ∈ x :: xs, o.talent.isSome = true) →
      pyMinBy opponentKey x xs ∈ x :: xs
      ∧ (pyMinBy opponentKey x xs).talent.isSome = true
      ∧ ∀ o ∈ x :: xs, ∀ t u : Int,
          (pyMinBy opponentKey x xs).talent = some t → o.talent = some u →
            t ≤ u := by
  intro x xs hall
  refine ⟨pyMinBy_mem opponentKey xs x,
    hall _ (pyMinBy_mem opponentKey xs x), ?_⟩
  intro o ho t u ht hu
  have h := pyMinBy_le opponentKey xs x o ho
  simp only [opponentKey, ht, hu, Option.getD_some] at h
  exact h

/-- Witness for C3 at the opponent talents [50, 10, 30]: the opponent
with talent 10 is selected. -/
theorem opponent_selection_minimal_witness :
    pyMinBy opponentKey oppA [oppB, oppC] = oppB
    ∧ (pyMinBy opponentKey oppA [oppB, oppC] ∈ oppA :: [oppB, oppC]
      ∧ (pyMinBy opponentKey oppA [oppB, oppC]).talent.isSome = true
      ∧ ∀ o ∈ oppA :: [oppB, oppC], ∀ t u : Int,
          (pyMinBy opponentKey oppA [oppB, oppC]).talent = some t →
            o.talent = some u → t ≤ u) :=
  ⟨by decide, opponent_selection_minimal oppA [oppB, oppC] (by decide)⟩

/-- `wait_for_fight_end` returns the first successfully fetched poll
whose status is terminal. -/
theorem wait_eq_find :
    ∀ polls : List (Option FightInfo),
      wait_for_fight_end polls
        = List.find? (fun fi => statusTerminal (fightStatus fi))
            (polls.filterMap id) := by
  intro polls
  induction polls with
  | nil => rfl
  | cons p rest ih =>
    cases p with
    | none =>
      simpa [wait_for_fight_end, List.filterMap_cons] using ih
    | some fi =>
      by_cases h : statusTerminal (fightStatus fi) = true
      · simp [wait_for_fight_end, List.filterMap_cons, List.find?_cons, h]
      · simp [wait_for_fight_end, List.filterMap_cons, List.find?_cons, h, ih]

/-- C4: fight polling returns the fight info of the first poll whose
status is in the set of terminal statuses, which is exactly
\x7b"finished", "end", 2\x7d — so "running", "progress", 1 and every
other status let polling continue — and an exhausted poll window (the
configured maximum wait) returns no result. -/
theorem wait_for_fight_end_first_terminal :
    (∀ polls : List (Option FightInfo),
      wait_for_fight_end polls
        = List.find? (fun fi => statusTerminal (fightStatus fi))
            (polls.filterMap id))
    ∧ (∀ v : StatusV, statusTerminal v = true ↔
        (v = StatusV.s "finished" ∨ v = StatusV.s "end" ∨ v = StatusV.i 2))
    ∧ statusTerminal (StatusV.s "running") = false
    ∧ statusTerminal (StatusV.s "progress") = false
    ∧ statusTerminal (StatusV.i 1) = false
    ∧ wait_for_fight_end [] = none := by
  refine ⟨wait_eq_find, ?_, by decide, by decide, by decide, rfl⟩
  intro v
  cases v with
  | s str => simp [statusTerminal]
  | i n => simp [statusTerminal]

/-- Evaluation of `runIteration` when the opponent list is non-empty:
the two-argument call binds, and the counters move only through the
poll outcome. -/
theorem runIteration_cons (leekId : Int) (it : FightIteration) (st : LoopState)
    (o : Opponent) (os : List Opponent) (hop : it.opponents = o :: os) :
    runIteration leekId it st
      = Except.ok
          (if truthyFightId (start_garden_fight it.reply) then
            match wait_for_fight_end it.polls with
            | some fr =>
              { st with
                fight_count := st.fight_count + 1,
                victories :=
                  st.victories + (if fr.winner.getD 0 == 1 then 1 else 0) }
            | none => st
          else st) := by
  unfold runIteration
  rw [hop]
  rfl

/-- Evaluation of `runIteration` when the opponent list is empty: the
one-argument call fails Python argument binding. -/
theorem runIteration_nil (leekId : Int) (it : FightIteration) (st : LoopState)
    (hop : it.opponents = []) :
    runIteration leekId it st
      = Except.error (PyError.typeError "missing required positional argument") := by
  unfold runIteration
  rw [hop]
  rfl

/-- C10: in any iteration that completes without a raised error, when
polling resolves nothing the fight and victory counters are unchanged,
and the counters can change only when polling resolves a fight
result. -/
theorem unresolved_fight_keeps_counters :
    ∀ (leekId : Int) (it : FightIteration) (st st1 : LoopState),
      runIteration leekId it st = Except.ok st1 →
      (wait_for_fight_end it.polls = none →
        st1.fight_count = st.fight_count ∧ st1.victories = st.victories)
      ∧ ((st1.fight_count ≠ st.fight_count ∨ st1.victories ≠ st.victories) →
        ∃ fr, wait_for_fight_end it.polls = some fr) := by
  intro leekId it st st1 h
  cases hop : it.opponents with
  | nil =>
    rw [runIteration_nil leekId it st hop] at h
    exact absurd h (by simp)
  | cons o os =>
    rw [runIteration_cons leekId it st o os hop] at h
    have hst1 := (Except.ok.inj h).symm
    by_cases ht : truthyFightId (start_garden_fight it.reply) = true
    · rw [if_pos ht] at hst1
      cases hw : wait_for_fight_end it.polls with
      | some fr =>
        constructor
        · intro hnone; exact absurd hnone (by simp)
        · intro _; exact ⟨fr, rfl⟩
      | none =>
        rw [hw] at hst1
        subst hst1
        constructor
        · intro _; exact ⟨rfl, rfl⟩
        · intro hc
          rcases hc with hc | hc <;> exact absurd rfl hc
    · rw [if_neg ht] at hst1
      subst hst1
      constructor
      · intro _; exact ⟨rfl, rfl⟩
      · intro hc
        rcases hc with hc | hc <;> exact absurd rfl hc

/-- Witness for C10: an iteration whose single poll observes a running
fight leaves the zero counters at zero. -/
theorem unresolved_fight_keeps_counters_witness :
    runIteration 2 iterNoResolve { time := 0, fight_count := 0, victories := 0 }
      = Except.ok { time := 0, fight_count := 0, victories := 0 }
    ∧ (0 : Nat) = 0 ∧ (0 : Nat) = 0 :=
  ⟨rfl,
    (unresolved_fight_keeps_counters 2 iterNoResolve
      { time := 0, fight_count := 0, victories := 0 }
      { time := 0, fight_count := 0, victories := 0 } rfl).1 rfl⟩

/-- C6: the final report prints defeats as fights minus victories and,
when at least one fight ran, the win rate as victories over fights times
100; the end-to-end session with wins in fights 1 and 3 and a loss in
fight 2 reports 3 fights, 2 victories, 1 defeat, and a win rate of
200/3 percent, which renders with one decimal as 66.7. -/
theorem final_report_totals :
    (∀ st : LoopState,
      (makeReport st).defeats = (makeReport st).fights - (makeReport st).victories
      ∧ (0 < st.fight_count →
        (makeReport st).win_rate
          = some ((st.victories : ℚ) / (st.fight_count : ℚ) * 100)))
    ∧ auto_fight_session 30 2 [iterWin1, iterLoss2, iterWin3]
      = Except.ok ⟨3, 2, 1, some ((200 : ℚ) / 3)⟩
    ∧ roundToTenths ((200 : ℚ) / 3) = (667 : ℚ) / 10 := by
  refine ⟨fun st => ⟨rfl, fun h => by simp [makeReport, h]⟩, ?_, ?_⟩
  · have hrun : auto_fight_session 30 2 [iterWin1, iterLoss2, iterWin3]
        = Except.ok (makeReport { time := 180, fight_count := 3, victories := 2 }) := rfl
    rw [hrun]
    simp only [makeReport]
    norm_num
  · rw [roundToTenths]
    norm_num [round_eq]

/-- Witness for C6 at the concrete loop state of the 3-fight session. -/
theorem final_report_totals_witness :
    (makeReport { time := 180, fight_count := 3, victories := 2 }).defeats
      = (makeReport { time := 180, fight_count := 3, victories := 2 }).fights
        - (makeReport { time := 180, fight_count := 3, victories := 2 }).victories
    ∧ (makeReport { time := 180, fight_count := 3, victories := 2 }).win_rate
      = some ((2 : ℚ) / (3 : ℚ) * 100) :=
  ⟨(final_report_totals.1 { time := 180, fight_count := 3, victories := 2 }).1,
    (final_report_totals.1 { time := 180, fight_count := 3, victories := 2 }).2
      (by decide)⟩

end LeekWars
